import Mathlib

/-!
# Teleport forwarding node: terminal abstraction and forwarding server

A shallow embedding of `lib/srv/term.go` (package `srv`) and
`lib/srv/forward/sshserver.go` (package `forward`).

Conventions of the embedding:

* a Go `error` is `Option Error` (`none` is `nil`); an error value is identified
  with the text its `Error()` method returns;
* a Go `[]byte` (and a Go `string` converted with `[]byte(s)`) is a list of
  bytes, a byte being a number below 256;
* calls that leave the program (the operating system, the SSH library, the
  auth service) get their outcome from an explicit argument, so every theorem
  quantifies over all outcomes;
* what a handler does to its channel, request and connection is returned as a
  list of events in program order; diagnostic printing (`fmt.Printf`, `log`) is
  not an event.
-/

/-- A byte. -/
abbrev Byte := Fin 256

/-- A Go byte slice. -/
abbrev Bytes := List Byte

/-- A non-nil Go error, identified with its message. -/
structure Error where
  msg : String
  deriving DecidableEq, Repr

/-- `trace.Wrap(err)`: annotates a non-nil error with a stack trace and keeps
its message; `nil` stays `nil`. -/
def trace.Wrap (err : Option Error) : Option Error := err

/-! ## `crypto/subtle` -/

namespace subtle

/-- `ConstantTimeByteEq(x, y uint8) int`, that is
`int((uint32(x^y) - 1) >> 31)` with 32-bit wrap-around subtraction. -/
def ConstantTimeByteEq (x y : Nat) : Nat :=
  (((x ^^^ y) % 2 ^ 32 + 2 ^ 32 - 1) % 2 ^ 32) >>> 31

/-- The accumulation loop of `ConstantTimeCompare`:
`for i := 0; i < len(x); i++ { v |= x[i] ^ y[i] }`. -/
def xorAccumulate : Nat → Bytes → Bytes → Nat
  | v, a :: x, b :: y => xorAccumulate (v ||| (a.val ^^^ b.val)) x y
  | v, _, _ => v

/-- `ConstantTimeCompare(x, y []byte) int`: 0 at once when the lengths differ,
otherwise the byte-equality test of the accumulated differences with 0. -/
def ConstantTimeCompare (x y : Bytes) : Nat :=
  if x.length ≠ y.length then 0
  else ConstantTimeByteEq (xorAccumulate 0 x y) 0

end subtle

/-! ## `golang.org/x/crypto/ssh` data -/

namespace ssh

/-- An SSH certificate (`*ssh.Certificate`): the key it certifies, its key id
and its wire encoding. -/
structure Certificate where
  Key : Bytes
  KeyId : String
  wire : Bytes
  deriving DecidableEq, Repr

/-- A value of the interface `ssh.PublicKey`: either a bare key or a
certificate (the dynamic type tested by `key.(*ssh.Certificate)`). -/
inductive PublicKey where
  | bare (algo : String) (wire : Bytes)
  | certificate (cert : Certificate)
  deriving DecidableEq, Repr

/-- `PublicKey.Marshal()`: the wire encoding of the key. -/
def PublicKey.Marshal : PublicKey → Bytes
  | .bare _ w => w
  | .certificate c => c.wire

/-- An `ssh.Signer`: a private key, known by the public key it signs for. -/
structure Signer where
  pub : PublicKey
  deriving DecidableEq, Repr

/-- An `*ssh.Request` (`Type_` is the field `Type`). -/
structure Request where
  Type_ : String
  WantReply : Bool
  Payload : Bytes
  deriving DecidableEq, Repr

end ssh

/-! ## `lib/services` -/

namespace services

/-- The kind of a certificate authority. -/
inductive CertAuthType where
  | HostCA
  | UserCA
  deriving DecidableEq, Repr

/-- `services.CertAuthID` (`Type_` is the field `Type`). -/
structure CertAuthID where
  DomainName : String
  Type_ : CertAuthType
  deriving DecidableEq, Repr

/-- A resolved certificate authority; `Checkers` is what `ca.Checkers()`
returns. -/
structure CertAuthority where
  Checkers : Except Error (List ssh.PublicKey)

end services

/-! ## Outcomes of code that may panic -/

/-- What a call does: it returns a value, or the goroutine panics. -/
inductive Outcome (α : Type) where
  | ret (a : α)
  | panic (why : String)
  deriving DecidableEq, Repr

/-! ## `lib/session` and `lib/sshutils` -/

namespace rsession

/-- Modelled from the spec: the type `TerminalParams` of `lib/session`, which is
not among the sources; the spec gives it as `(W, H, Wpx, Hpx: uint32)`. -/
structure TerminalParams where
  W : Nat
  H : Nat
  Wpx : Nat
  Hpx : Nat
  deriving DecidableEq, Repr

/-- The Go zero value of `TerminalParams`. -/
def TerminalParams.zero : TerminalParams := { W := 0, H := 0, Wpx := 0, Hpx := 0 }

end rsession

/-! ## `os`, `os/exec`, `syscall` -/

namespace os

/-- An `*os.File` that is not nil: a descriptor and whether it has been
closed. -/
structure File where
  fd : Nat
  closed : Bool
  deriving DecidableEq, Repr

/-- `os.ErrClosed`. -/
def ErrClosed : Error := { msg := "file already closed" }

/-- `(*File).Close()`: an already closed file reports `ErrClosed`; otherwise
the descriptor is released whatever the system call reports (`sys`). -/
def File.Close (f : File) (sys : Option Error) : File × Option Error :=
  if f.closed then (f, some ErrClosed) else ({ f with closed := true }, sys)

end os

namespace syscall

/-- `syscall.WaitStatus` (a `uint32`), kept as a natural number. -/
abbrev WaitStatus := Nat

/-- `WaitStatus.Exited()`: `w&mask == exited` with `mask = 0x7F`,
`exited = 0x00`. -/
def WaitStatus.Exited (w : WaitStatus) : Bool := w &&& 0x7F == 0x00

/-- `WaitStatus.ExitStatus()`: `-1` unless exited, else `int(w>>shift) & 0xFF`
with `shift = 8`. -/
def WaitStatus.ExitStatus (w : WaitStatus) : Int :=
  if !WaitStatus.Exited w then -1 else ((w >>> 8) &&& 0xFF : Nat)

end syscall

namespace exec

/-- What `ProcessState.Sys()` holds: a `syscall.WaitStatus`, or a value of some
other dynamic type (its `%T` and `%v` renderings). -/
inductive SysValue where
  | waitStatus (w : syscall.WaitStatus)
  | other (typeName : String) (value : String)
  deriving DecidableEq, Repr

/-- What `cmd.Wait()` returns: `nil` (the process state is then set), an
`*exec.ExitError` (which embeds the process state), or another error. -/
inductive WaitResult where
  | ok (sys : SysValue)
  | exitError (sys : SysValue)
  | otherError (e : Error)
  deriving DecidableEq, Repr

/-- An `*os.Process`. -/
structure Process where
  Pid : Nat
  deriving DecidableEq, Repr

/-- An `*exec.Cmd`: its path and its process, `nil` until started. -/
structure Cmd where
  Path : String
  Process : Option Process
  deriving DecidableEq, Repr

end exec

/-! ## Package `srv` (`lib/srv/term.go`) -/

namespace srv

/-- `ExecResult`. -/
structure ExecResult where
  Code : Int
  Command : String
  deriving DecidableEq, Repr

/-- The struct `terminal`, a local PTY: `wg` is the counter of the
`sync.WaitGroup`; `cmd`, `pty`, `tty` are pointers (`none` is `nil`). The mutex
and the back pointer to the context are left out. -/
structure terminal where
  wg : Int
  cmd : Option exec.Cmd
  pty : Option os.File
  tty : Option os.File
  params : rsession.TerminalParams
  deriving DecidableEq, Repr

/-- `NewLocalTerminal`: `open_` is what `pty.Open()` returns. -/
def NewLocalTerminal (open_ : Except Error (os.File × os.File)) : Except Error terminal :=
  match open_ with
  | .error err => .error err
  | .ok (pty, tty) =>
    .ok { wg := 0, cmd := none, pty := some pty, tty := some tty,
          params := rsession.TerminalParams.zero }

/-- `(*terminal).AddParty(delta)`, that is `t.wg.Add(delta)`: the counter
changes by `delta`, and `WaitGroup.Add` panics when it would become negative. -/
def terminal.AddParty (t : terminal) (delta : Int) : Outcome terminal :=
  if t.wg + delta < 0 then .panic "sync: negative WaitGroup counter"
  else .ret { t with wg := t.wg + delta }

/-- `(*terminal).Wait()`: `waited` is what `t.cmd.Wait()` returns. -/
def terminal.Wait (t : terminal) (waited : exec.WaitResult) :
    Outcome (Option ExecResult × Option Error) :=
  match t.cmd with
  | none => .panic "nil pointer dereference"
  | some cmd =>
    match waited with
    | .exitError sys =>
      match sys with
      | .waitStatus status =>
        .ret (some { Code := syscall.WaitStatus.ExitStatus status, Command := cmd.Path }, none)
      | .other _ _ => .panic "interface conversion"
    | .otherError err => .ret (none, some err)
    | .ok sys =>
      match sys with
      | .other typeName value =>
        .ret (none, some { msg := "unknown exit status: " ++ typeName ++ "(" ++ value ++ ")" })
      | .waitStatus status =>
        .ret (some { Code := syscall.WaitStatus.ExitStatus status, Command := cmd.Path }, none)

/-- `(*terminal).Kill()`: `killed` is what `t.cmd.Process.Kill()` returns. -/
def terminal.Kill (t : terminal) (killed : Option Error) : Outcome (Option Error) :=
  match t.cmd with
  | none => .panic "nil pointer dereference"
  | some cmd =>
    match cmd.Process with
    | none => .ret none
    | some _ =>
      match killed with
      | none => .ret none
      | some err =>
        if err.msg ≠ "os: process already finished" then .ret (trace.Wrap (some err))
        else .ret none

/-- `(*terminal).SetWinSize(params)`: `sys` is what `term.SetWinsize` returns. -/
def terminal.SetWinSize (t : terminal) (params : rsession.TerminalParams)
    (sys : Option Error) : terminal × Option Error :=
  match t.pty with
  | none => (t, some { msg := "no pty" })
  | some _ =>
    match sys with
    | some err => (t, trace.Wrap (some err))
    | none => ({ t with params := params }, none)

/-- `(*terminal).GetTerminalParams()`. -/
def terminal.GetTerminalParams (t : terminal) : rsession.TerminalParams := t.params

/-- `(*terminal).Close()` without its `go t.closePTY()`: the TTY is closed when
the pointer is not nil (`sys` is what the system call reports), the pointer is
kept, the PTY is not touched. -/
def terminal.Close (t : terminal) (sys : Option Error) : terminal × Option Error :=
  match t.tty with
  | none => (t, trace.Wrap none)
  | some tty =>
    let (tty1, e) := os.File.Close tty sys
    ({ t with tty := some tty1 }, trace.Wrap e)

/-- `(*terminal).closePTY()` once `t.wg.Wait()` has returned: `t.pty.Close()`
(a nil file only reports an error) and `t.pty = nil`. -/
def terminal.closePTY.afterWait (t : terminal) : terminal :=
  { t with pty := none }

/-- The local terminal together with the goroutines started by
`go t.closePTY()`: `closers` have not yet got past `t.wg.Wait()`, `passed` have
got past it and have not yet run `t.pty.Close()`. -/
structure LocalState where
  t : terminal
  closers : Nat
  passed : Nat
  deriving DecidableEq, Repr

/-- A step of the local terminal. The body of `closePTY` is two steps: its
`t.wg.Wait()` returning, and its `t.pty.Close(); t.pty = nil`. -/
inductive Step where
  | AddParty (delta : Int)
  | Close (sys : Option Error)
  | closePTY_Wait
  | closePTY_Close
  deriving DecidableEq, Repr

/-- What a step does: the next state, nothing yet (the goroutine is blocked in
`t.mu.Lock()` or `wg.Wait()`, or no such goroutine exists), or a panic. -/
inductive StepResult where
  | next (s : LocalState)
  | blocked
  | panic (why : String)
  deriving DecidableEq, Repr

/-- One step of the local terminal. `AddParty` takes no lock and can run in any
state. `Close` runs `terminal.Close` and starts a `closePTY` goroutine.
`closePTY_Wait` lets the `wg.Wait()` of one such goroutine return, which needs
the mutex `t.mu` (held by a goroutine that is past its wait) and a counter of
zero. `closePTY_Close` lets a goroutine that is past its wait close the PTY. -/
def step (s : LocalState) : Step → StepResult
  | .AddParty delta =>
    match s.t.AddParty delta with
    | .ret t1 => .next { s with t := t1 }
    | .panic why => .panic why
  | .Close sys => .next { s with t := (s.t.Close sys).1, closers := s.closers + 1 }
  | .closePTY_Wait =>
    if s.closers = 0 then .blocked
    else if s.passed ≠ 0 then .blocked
    else if s.t.wg ≠ 0 then .blocked
    else .next { s with closers := s.closers - 1, passed := s.passed + 1 }
  | .closePTY_Close =>
    if s.passed = 0 then .blocked
    else .next { s with t := terminal.closePTY.afterWait s.t, passed := s.passed - 1 }

/-- Runs the steps in order from a state; `none` when one of them blocks or
panics. -/
def run : LocalState → List Step → Option LocalState
  | s, [] => some s
  | s, a :: rest =>
    match step s a with
    | .next s1 => run s1 rest
    | .blocked => none
    | .panic _ => none

/-- The TTY is open: the pointer is set and the file is not closed. -/
def terminal.ttyOpen (t : terminal) : Bool :=
  match t.tty with
  | some f => !f.closed
  | none => false

/-- The PTY is open: the pointer is set and the file is not closed. -/
def terminal.ptyOpen (t : terminal) : Bool :=
  match t.pty with
  | some f => !f.closed
  | none => false

/-- The struct `remoteTerminal`: the counter of its wait group and the cached
params (the session and the buffer are left out). -/
structure remoteTerminal where
  wg : Int
  params : rsession.TerminalParams
  deriving DecidableEq, Repr

/-- `(*remoteTerminal).SetWinSize(params)`. -/
def remoteTerminal.SetWinSize (t : remoteTerminal) (params : rsession.TerminalParams) :
    remoteTerminal × Option Error :=
  ({ t with params := params }, none)

/-- `(*remoteTerminal).GetTerminalParams()`. -/
def remoteTerminal.GetTerminalParams (t : remoteTerminal) : rsession.TerminalParams :=
  t.params

/-- A value of the interface `Terminal`. -/
inductive Terminal where
  | localTerm (t : terminal)
  | remoteTerm (t : remoteTerminal)
  deriving DecidableEq, Repr

/-- `Terminal.GetTerminalParams()`, dispatched on the variant. -/
def Terminal.GetTerminalParams : Terminal → rsession.TerminalParams
  | .localTerm t => t.GetTerminalParams
  | .remoteTerm t => t.GetTerminalParams

/-- The server behind a context: `GetCertAuthority` is
`GetAuthService().GetCertAuthority`, `AdvertiseAddr` the advertised address as
bytes. -/
structure Server where
  GetCertAuthority : services.CertAuthID → Bool → Except Error services.CertAuthority
  AdvertiseAddr : Bytes

/-- Modelled from the spec: the struct `ServerContext` of `lib/srv`, which is not
among the sources; the fields the two source files use. `agent` says whether
`SetAgent` has stored an agent. -/
structure ServerContext where
  ClusterName : String
  Login : String
  term : Option Terminal
  agent : Bool
  deriving DecidableEq, Repr

/-- Modelled from the spec: `ServerContext.GetTerm`, not among the sources. -/
def ServerContext.GetTerm (ctx : ServerContext) : Option Terminal := ctx.term

/-- Modelled from the spec: `ServerContext.SetTerm`, not among the sources; it
stores the terminal, and a second call does not replace a stored one. -/
def ServerContext.SetTerm (ctx : ServerContext) (t : Terminal) : ServerContext :=
  match ctx.term with
  | none => { ctx with term := some t }
  | some _ => ctx

/-- Modelled from the spec: `ServerContext.SetAgent`, not among the sources. -/
def ServerContext.SetAgent (ctx : ServerContext) : ServerContext :=
  { ctx with agent := true }

/-- The loop of `IsHostAuthority` over the checkers, with its early `return
true`. -/
def IsHostAuthority.loop (advertise : Bytes) (p : ssh.PublicKey) (addr : Bytes) :
    List ssh.PublicKey → Bool
  | [] => false
  | checker :: rest =>
    let addrMatch := subtle.ConstantTimeCompare advertise addr == 1
    let caMatch := subtle.ConstantTimeCompare checker.Marshal p.Marshal == 1
    if addrMatch && caMatch then true
    else IsHostAuthority.loop advertise p addr rest

/-- The `IsHostAuthority` callback of the `ssh.CertChecker` built in
`NewRemoteTerminal(ctx)`, `s` being `ctx.srv`. -/
def IsHostAuthority (ctx : ServerContext) (s : Server) (p : ssh.PublicKey)
    (addr : Bytes) : Bool :=
  let caid : services.CertAuthID := { DomainName := ctx.ClusterName, Type_ := .HostCA }
  match s.GetCertAuthority caid false with
  | .error _ => false
  | .ok ca =>
    match ca.Checkers with
    | .error _ => false
    | .ok checkers => IsHostAuthority.loop s.AdvertiseAddr p addr checkers

end srv

/-! ## `ssh.Unmarshal` -/

namespace ssh

/-- The kinds of struct field the request payloads use. -/
inductive FieldKind where
  | uint32
  | string
  deriving DecidableEq, Repr

/-- A decoded field. -/
inductive FieldValue where
  | uint32 (n : Nat)
  | string (s : Bytes)
  deriving DecidableEq, Repr

/-- `errShortRead`. -/
def errShortRead : Error := { msg := "ssh: short read" }

/-- The error of `Unmarshal` for a string field that does not parse. -/
def errField : Error := { msg := "ssh: unmarshal error for field" }

/-- The error of `Unmarshal` for bytes left over after the last field. -/
def errTrailing : Error := { msg := "ssh: parse error in message" }

/-- Big-endian `uint32` at the head of the data, and the rest. -/
def parseUint32 : Bytes → Option (Nat × Bytes)
  | a :: b :: c :: d :: rest =>
    some (a.val * 2 ^ 24 + b.val * 2 ^ 16 + c.val * 2 ^ 8 + d.val, rest)
  | _ => none

/-- `parseString`: a `uint32` length, then that many bytes. -/
def parseString (data : Bytes) : Option (Bytes × Bytes) :=
  match parseUint32 data with
  | none => none
  | some (n, rest) =>
    if rest.length < n then none else some (rest.take n, rest.drop n)

/-- The field loop of `ssh.Unmarshal(data, out)` over the fields of `out`, with
the final test that no data is left. -/
def Unmarshal.fields : List FieldKind → Bytes → Except Error (List FieldValue)
  | [], data => if data.length ≠ 0 then .error errTrailing else .ok []
  | .uint32 :: kinds, data =>
    match parseUint32 data with
    | none => .error errShortRead
    | some (n, rest) =>
      match Unmarshal.fields kinds rest with
      | .error e => .error e
      | .ok vs => .ok (.uint32 n :: vs)
  | .string :: kinds, data =>
    match parseString data with
    | none => .error errField
    | some (str, rest) =>
      match Unmarshal.fields kinds rest with
      | .error e => .error e
      | .ok vs => .ok (.string str :: vs)

end ssh

namespace sshutils

/-- Modelled from the spec: the type `PTYReqParams` of `lib/sshutils`, which is
not among the sources, with the layout the spec gives for `pty-req`. -/
structure PTYReqParams where
  Env : Bytes
  W : Nat
  H : Nat
  Wpx : Nat
  Hpx : Nat
  Modes : Bytes
  deriving DecidableEq, Repr

/-- Modelled from the spec: `PTYReqParams.CheckAndSetDefaults`, not among the
sources: a zero width becomes 80, a zero height 24, the pixel dimensions keep
their value (their default is zero). -/
def PTYReqParams.CheckAndSetDefaults (r : PTYReqParams) : Except Error PTYReqParams :=
  .ok { r with W := if r.W = 0 then 80 else r.W, H := if r.H = 0 then 24 else r.H }

end sshutils

namespace srv

/-- `ssh.Unmarshal(req.Payload, &r)` for `r` of type `sshutils.PTYReqParams`. -/
def ParsePTYReq.unmarshal (payload : Bytes) : Except Error sshutils.PTYReqParams :=
  match ssh.Unmarshal.fields [.string, .uint32, .uint32, .uint32, .uint32, .string] payload with
  | .error e => .error e
  | .ok [.string env, .uint32 w, .uint32 h, .uint32 wpx, .uint32 hpx, .string modes] =>
    .ok { Env := env, W := w, H := h, Wpx := wpx, Hpx := hpx, Modes := modes }
  | .ok _ => .error ssh.errField

/-- `ParsePTYReq(req)`. -/
def ParsePTYReq (req : ssh.Request) : Except Error sshutils.PTYReqParams :=
  match ParsePTYReq.unmarshal req.Payload with
  | .error err => .error err
  | .ok r =>
    match r.CheckAndSetDefaults with
    | .error err => .error err
    | .ok r1 => .ok r1

end srv

/-! ## Package `forward` (`lib/srv/forward/sshserver.go`) -/

namespace ssh

/-- `ssh.NewCertSigner(cert, signer)`: refused when the certificate is for
another key than the signer's; the new signer presents the certificate. -/
def NewCertSigner (cert : Certificate) (signer : Signer) : Except Error Signer :=
  if cert.Key ≠ signer.pub.Marshal then
    .error { msg := "ssh: signer and cert have different public key" }
  else .ok { pub := .certificate cert }

end ssh

namespace forward

/-- What a handler does to the connection, the channel, the request and the
outbound session, in program order. -/
inductive Event where
  | stderrWrite (message : String)
  | reply (ok : Bool) (payload : Option String)
  | channelClose
  | connClose
  | connSendRequest (name : String) (wantReply : Bool)
  | connOpenChannel (name : String)
  | sessionRequestSubsystem (name : Bytes)
  | sessionSendRequest (name : String) (wantReply : Bool) (payload : Bytes)
  | sessionClose
  | pumpInbound
  | pumpOutbound
  | regOpenSession
  deriving DecidableEq, Repr

/-- The outcomes of the calls that leave the program while a request is
handled. -/
structure World where
  ptyOpen : Except Error (os.File × os.File)
  agentDial : Option Error
  sshDial : Option Error
  newSession : Option Error
  requestSubsystem : Option Error
  stdoutPipe : Option Error
  stdinPipe : Option Error
  sessionSendRequest : Option Error
  stdinCopyEnds : Bool
  openSession : Option Error
  openChannel : Option Error
  Quote : String → String
  Errorf : String → String

/-- How a handler ends: it returns its error, or it never returns (it waits
for a copy that does not end). -/
inductive Ret where
  | returned (err : Option Error)
  | blocked
  deriving DecidableEq, Repr

/-- The context after a handler, the events it caused, and how it ended. -/
structure Result where
  ctx : srv.ServerContext
  events : List Event
  ret : Ret
  deriving DecidableEq, Repr

/-- `handleGlobalRequest(sconn, r)`: the events it causes. The error that
`sconn.SendRequest` may return is only printed. -/
def handleGlobalRequest (r : ssh.Request) : List Event :=
  if r.Type_ = "keepalive@openssh.com" then
    if r.WantReply then
      [.connSendRequest "keepalive@openssh.com" true, .reply false none]
    else []
  else [.reply false none]

/-- `replySuccess(req)`. -/
def replySuccess (req : ssh.Request) : List Event :=
  if req.WantReply then [.reply true none] else []

/-- `replyError(message, ch, req)`. -/
def replyError (message : String) (req : ssh.Request) : List Event :=
  .stderrWrite message :: (if req.WantReply then [.reply false (some message)] else [])

/-- `remoteSession(ctx)`: the agent socket is dialled, then the host, then a
session is opened; the first failure is returned. -/
def remoteSession (w : World) : Option Error :=
  match w.agentDial with
  | some err => some err
  | none =>
    match w.sshDial with
    | some err => some err
    | none =>
      match w.newSession with
      | some err => some err
      | none => none

/-- `handleEnv`. -/
def handleEnv (ctx : srv.ServerContext) : Result :=
  { ctx := ctx, events := [], ret := .returned none }

/-- `ssh.Unmarshal(req.Payload, &s)` for the local `subsystemRequest`. -/
def handleSubsystem.unmarshal (payload : Bytes) : Except Error Bytes :=
  match ssh.Unmarshal.fields [.string] payload with
  | .error e => .error e
  | .ok [.string name] => .ok name
  | .ok _ => .error ssh.errField

/-- `handleSubsystem`. -/
def handleSubsystem (w : World) (ctx : srv.ServerContext) (req : ssh.Request) : Result :=
  match handleSubsystem.unmarshal req.Payload with
  | .error err => { ctx := ctx, events := replyError err.msg req, ret := .returned (some err) }
  | .ok name =>
    match remoteSession w with
    | some err => { ctx := ctx, events := replyError err.msg req, ret := .returned (some err) }
    | none =>
      match w.requestSubsystem with
      | some err =>
        { ctx := ctx, events := .sessionRequestSubsystem name :: replyError err.msg req,
          ret := .returned (some err) }
      | none =>
        match w.stdoutPipe with
        | some err =>
          { ctx := ctx, events := .sessionRequestSubsystem name :: replyError err.msg req,
            ret := .returned (some err) }
        | none =>
          match w.stdinPipe with
          | some err =>
            { ctx := ctx, events := .sessionRequestSubsystem name :: replyError err.msg req,
              ret := .returned (some err) }
          | none =>
            if w.stdinCopyEnds then
              { ctx := ctx,
                events := [.sessionRequestSubsystem name, .pumpInbound, .pumpOutbound,
                  .channelClose],
                ret := .returned none }
            else
              { ctx := ctx,
                events := [.sessionRequestSubsystem name, .pumpInbound, .pumpOutbound],
                ret := .blocked }

/-- `ssh.Unmarshal(req.Payload, &e)` for the local `execRequest`. -/
def handleExec.unmarshal (payload : Bytes) : Except Error Bytes :=
  match ssh.Unmarshal.fields [.string] payload with
  | .error e => .error e
  | .ok [.string command] => .ok command
  | .ok _ => .error ssh.errField

/-- `handleExec`; the deferred `session.Close()` is the last event of every
return that follows the opening of the session. -/
def handleExec (w : World) (ctx : srv.ServerContext) (req : ssh.Request) : Result :=
  match handleExec.unmarshal req.Payload with
  | .error err => { ctx := ctx, events := [], ret := .returned (some err) }
  | .ok _ =>
    match remoteSession w with
    | some err => { ctx := ctx, events := [], ret := .returned (some err) }
    | none =>
      match w.stdoutPipe with
      | some err =>
        { ctx := ctx, events := replyError err.msg req ++ [.sessionClose],
          ret := .returned (some err) }
      | none =>
        match w.stdinPipe with
        | some err =>
          { ctx := ctx, events := replyError err.msg req ++ [.sessionClose],
            ret := .returned (some err) }
        | none =>
          match w.sessionSendRequest with
          | some err =>
            { ctx := ctx,
              events := [.pumpInbound, .pumpOutbound,
                .sessionSendRequest req.Type_ req.WantReply req.Payload]
                ++ replyError err.msg req ++ [.sessionClose],
              ret := .returned (some err) }
          | none =>
            if w.stdinCopyEnds then
              { ctx := ctx,
                events := [.pumpInbound, .pumpOutbound,
                  .sessionSendRequest req.Type_ req.WantReply req.Payload,
                  .channelClose, .sessionClose],
                ret := .returned none }
            else
              { ctx := ctx,
                events := [.pumpInbound, .pumpOutbound,
                  .sessionSendRequest req.Type_ req.WantReply req.Payload],
                ret := .blocked }

/-- The local struct `ptyRequest` of `handlePtyReq`. -/
structure ptyRequest where
  Env : Bytes
  W : Nat
  H : Nat
  Wpx : Nat
  Hpx : Nat
  Modes : Bytes
  deriving DecidableEq, Repr

/-- `ssh.Unmarshal(req.Payload, &p)` for the local `ptyRequest`. -/
def handlePtyReq.unmarshal (payload : Bytes) : Except Error ptyRequest :=
  match ssh.Unmarshal.fields [.string, .uint32, .uint32, .uint32, .uint32, .string] payload with
  | .error e => .error e
  | .ok [.string env, .uint32 w, .uint32 h, .uint32 wpx, .uint32 hpx, .string modes] =>
    .ok { Env := env, W := w, H := h, Wpx := wpx, Hpx := hpx, Modes := modes }
  | .ok _ => .error ssh.errField

/-- `handlePtyReq`: the request is decoded (and only printed); a context
without a terminal gets a new local terminal. -/
def handlePtyReq (w : World) (ctx : srv.ServerContext) (req : ssh.Request) : Result :=
  match handlePtyReq.unmarshal req.Payload with
  | .error err => { ctx := ctx, events := [], ret := .returned (some err) }
  | .ok _ =>
    match ctx.GetTerm with
    | none =>
      match srv.NewLocalTerminal w.ptyOpen with
      | .error err => { ctx := ctx, events := [], ret := .returned (some err) }
      | .ok term =>
        { ctx := ctx.SetTerm (.localTerm term), events := [], ret := .returned none }
    | some _ => { ctx := ctx, events := [], ret := .returned none }

/-- `handleShell`: the channel is handed to the session registry. -/
def handleShell (w : World) (ctx : srv.ServerContext) : Result :=
  match w.openSession with
  | some err => { ctx := ctx, events := [.regOpenSession], ret := .returned (some err) }
  | none => { ctx := ctx, events := [.regOpenSession], ret := .returned none }

/-- `handleAgentForward`. -/
def handleAgentForward (w : World) (ctx : srv.ServerContext) : Result :=
  match w.openChannel with
  | some err =>
    { ctx := ctx, events := [.connOpenChannel "auth-agent@openssh.com"],
      ret := .returned (some err) }
  | none =>
    { ctx := ctx.SetAgent, events := [.connOpenChannel "auth-agent@openssh.com"],
      ret := .returned none }

/-- The local struct `windowChangeRequest` of `handleWindowChange`. -/
structure windowChangeRequest where
  W : Nat
  H : Nat
  Wpx : Nat
  Hpx : Nat
  deriving DecidableEq, Repr

/-- `ssh.Unmarshal(req.Payload, &w)` for the local `windowChangeRequest`. -/
def handleWindowChange.unmarshal (payload : Bytes) : Except Error windowChangeRequest :=
  match ssh.Unmarshal.fields [.uint32, .uint32, .uint32, .uint32] payload with
  | .error e => .error e
  | .ok [.uint32 w, .uint32 h, .uint32 wpx, .uint32 hpx] =>
    .ok { W := w, H := h, Wpx := wpx, Hpx := hpx }
  | .ok _ => .error ssh.errField

/-- `handleWindowChange`: the request is decoded (and only printed). -/
def handleWindowChange (ctx : srv.ServerContext) (req : ssh.Request) : Result :=
  match handleWindowChange.unmarshal req.Payload with
  | .error err => { ctx := ctx, events := [], ret := .returned (some err) }
  | .ok _ => { ctx := ctx, events := [], ret := .returned none }

/-- The message of the `default` case of `handleRequest`:
`fmt.Sprintf("unsupported request type: %q\n", req.Type)`. -/
def unsupportedMessage (w : World) (req : ssh.Request) : String :=
  "unsupported request type: " ++ w.Quote req.Type_ ++ "\n"

/-- The `switch` of `handleRequest`: the handler of the request type, `none`
for the `default` case. -/
def handleRequest.dispatch (w : World) (ctx : srv.ServerContext) (req : ssh.Request) :
    Option Result :=
  if req.Type_ = "env" then some (handleEnv ctx)
  else if req.Type_ = "exec" then some (handleExec w ctx req)
  else if req.Type_ = "pty-req" then some (handlePtyReq w ctx req)
  else if req.Type_ = "subsystem" then some (handleSubsystem w ctx req)
  else if req.Type_ = "shell" then some (handleShell w ctx)
  else if req.Type_ = "window-change" then some (handleWindowChange ctx req)
  else if req.Type_ = "auth-agent-req@openssh.com" then some (handleAgentForward w ctx)
  else none

/-- `handleRequest(ctx, channel, req)`. -/
def handleRequest (w : World) (ctx : srv.ServerContext) (req : ssh.Request) : Result :=
  match handleRequest.dispatch w ctx req with
  | none =>
    let message := unsupportedMessage w req
    { ctx := ctx, events := replyError message req,
      ret := .returned (some { msg := w.Errorf message }) }
  | some r =>
    match r.ret with
    | .blocked => r
    | .returned (some err) =>
      { ctx := r.ctx, events := r.events ++ replyError err.msg req,
        ret := .returned (some err) }
    | .returned none =>
      { ctx := r.ctx, events := r.events ++ replySuccess req, ret := .returned none }

/-- The files and the key parsers `readSigner` relies on: `ioutil.ReadFile`,
`ssh.ParsePrivateKey` and the key returned by `ssh.ParseAuthorizedKey`. -/
structure KeyEnv where
  ReadFile : String → Except Error Bytes
  ParsePrivateKey : Bytes → Except Error ssh.Signer
  ParseAuthorizedKey : Bytes → Except Error ssh.PublicKey

/-- `readPrivateKey(path)`. -/
def readPrivateKey (env : KeyEnv) (path : String) : Except Error ssh.Signer :=
  match env.ReadFile path with
  | .error err => .error err
  | .ok privateBytes =>
    match env.ParsePrivateKey privateBytes with
    | .error err => .error err
    | .ok priv => .ok priv

/-- `readCertificate(path)`. -/
def readCertificate (env : KeyEnv) (path : String) : Except Error ssh.Certificate :=
  match env.ReadFile path with
  | .error err => .error err
  | .ok publicBytes =>
    match env.ParseAuthorizedKey publicBytes with
    | .error err => .error err
    | .ok key =>
      match key with
      | .certificate sshCert => .ok sshCert
      | .bare _ _ => .error { msg := "not cert" }

/-- `readSigner(path)`. -/
def readSigner (env : KeyEnv) (path : String) : Except Error ssh.Signer :=
  match readPrivateKey env (path ++ ".key") with
  | .error err => .error err
  | .ok privateKey =>
    match readCertificate env (path ++ ".cert") with
    | .error err => .error err
    | .ok cert =>
      match ssh.NewCertSigner cert privateKey with
      | .error err => .error err
      | .ok s => .ok s

end forward

/-! ## `remoteTerminal.Run` (`lib/srv/term.go`) -/

namespace ssh

/-- The opcode `ssh.ECHO`. -/
def ECHO : Nat := 53

/-- The opcode `ssh.TTY_OP_ISPEED`. -/
def TTY_OP_ISPEED : Nat := 128

/-- The opcode `ssh.TTY_OP_OSPEED`. -/
def TTY_OP_OSPEED : Nat := 129

/-- `ssh.TerminalModes`, a map from opcode to value, as an association list. -/
abbrev TerminalModes := List (Nat × Nat)

/-- The `pty-req` message that `Session.RequestPty` sends: terminal name,
columns, rows, width and height in pixels, and the modes. -/
structure ptyRequestMsg where
  Term : String
  Columns : Nat
  Rows : Nat
  Width : Nat
  Height : Nat
  Modes : TerminalModes
  deriving DecidableEq, Repr

/-- The message built by `(*Session).RequestPty(term, h, w, termmodes)`:
`Columns: uint32(w)`, `Rows: uint32(h)`, `Width: uint32(w * 8)`,
`Height: uint32(h * 8)`. -/
def Session.RequestPty (term : String) (h w : Nat) (termmodes : TerminalModes) :
    ptyRequestMsg :=
  { Term := term, Columns := w % 2 ^ 32, Rows := h % 2 ^ 32,
    Width := (w * 8) % 2 ^ 32, Height := (h * 8) % 2 ^ 32, Modes := termmodes }

end ssh

namespace srv

/-- What `remoteTerminal.Run` asks of its outbound session, in program order. -/
inductive SessionEvent where
  | ptyReq (msg : ssh.ptyRequestMsg)
  | shell
  deriving DecidableEq, Repr

/-- What the calls on the outbound session return during `Run`. -/
structure SessionWorld where
  stdoutPipe : Option Error
  stdinPipe : Option Error
  requestPty : Option Error
  shell : Option Error
  deriving DecidableEq, Repr

/-- The `modes` of `remoteTerminal.Run`. -/
def remoteTerminal.Run.modes : ssh.TerminalModes :=
  [(ssh.ECHO, 1), (ssh.TTY_OP_ISPEED, 14400), (ssh.TTY_OP_OSPEED, 14400)]

/-- `(*remoteTerminal).Run()`: the requests it sends on the session and the
error it returns. The call is
`t.session.RequestPty("xterm", t.params.W, t.params.H, modes)`. -/
def remoteTerminal.Run (t : remoteTerminal) (w : SessionWorld) :
    List SessionEvent × Option Error :=
  match w.stdoutPipe with
  | some err => ([], trace.Wrap (some err))
  | none =>
    match w.stdinPipe with
    | some err => ([], trace.Wrap (some err))
    | none =>
      let req := ssh.Session.RequestPty "xterm" t.params.W t.params.H remoteTerminal.Run.modes
      match w.requestPty with
      | some err => ([.ptyReq req], trace.Wrap (some err))
      | none =>
        match w.shell with
        | some err => ([.ptyReq req, .shell], trace.Wrap (some err))
        | none => ([.ptyReq req, .shell], none)

end srv

namespace forward

/-- The number of calls of `req.Reply` among the events. -/
def replyCount : List Event → Nat
  | [] => 0
  | .reply _ _ :: rest => replyCount rest + 1
  | _ :: rest => replyCount rest

/-- The number of writes to the channel's stderr among the events. -/
def stderrCount : List Event → Nat
  | [] => 0
  | .stderrWrite _ :: rest => stderrCount rest + 1
  | _ :: rest => stderrCount rest

end forward

/-! ## Example inputs -/

namespace examples

/-- A host CA key. -/
def caKey : ssh.PublicKey := .bare "ssh-rsa" [1, 2, 3]

/-- Another key. -/
def otherKey : ssh.PublicKey := .bare "ssh-rsa" [1, 2, 4]

/-- The address `n:22`. -/
def nodeAddr : Bytes := [110, 58, 50, 50]

/-- A context without terminal and agent. -/
def ctx : srv.ServerContext :=
  { ClusterName := "example.com", Login := "root", term := none, agent := false }

/-- A server whose host CA has the checkers `otherKey` and `caKey`. -/
def server : srv.Server :=
  { GetCertAuthority := fun _ _ => .ok { Checkers := .ok [otherKey, caKey] },
    AdvertiseAddr := nodeAddr }

/-- A server whose auth service fails. -/
def serverNoCA : srv.Server :=
  { GetCertAuthority := fun _ _ => .error { msg := "not found" }, AdvertiseAddr := nodeAddr }

/-- A server whose CA cannot produce its checkers. -/
def serverBadCA : srv.Server :=
  { GetCertAuthority := fun _ _ => .ok { Checkers := .error { msg := "bad key" } },
    AdvertiseAddr := nodeAddr }

/-- A server whose CA has no checkers. -/
def serverEmptyCA : srv.Server :=
  { GetCertAuthority := fun _ _ => .ok { Checkers := .ok [] }, AdvertiseAddr := nodeAddr }

/-- A world in which every outside call succeeds; `%q` puts the text between
double quotes. -/
def world : forward.World :=
  { ptyOpen := .ok ({ fd := 3, closed := false }, { fd := 4, closed := false }),
    agentDial := none, sshDial := none, newSession := none, requestSubsystem := none,
    stdoutPipe := none, stdinPipe := none, sessionSendRequest := none,
    stdinCopyEnds := true, openSession := none, openChannel := none,
    Quote := fun t => String.singleton (Char.ofNat 34) ++ t ++ String.singleton (Char.ofNat 34),
    Errorf := fun t => t }

/-- The world `world` in which `pty.Open()` fails. -/
def worldNoPty : forward.World :=
  { world with ptyOpen := .error { msg := "out of ptys" } }

/-- The global request `keepalive@openssh.com` with `WantReply=true`. -/
def keepalive : ssh.Request :=
  { Type_ := "keepalive@openssh.com", WantReply := true, Payload := [] }

/-- The channel request `x11-req` with `WantReply=true`. -/
def x11 : ssh.Request := { Type_ := "x11-req", WantReply := true, Payload := [] }

/-- The request `pty-req` with terminal `x`, `W=0,H=0,Wpx=0,Hpx=0` and no
modes. -/
def ptyZero : ssh.Request :=
  { Type_ := "pty-req", WantReply := true,
    Payload := [0, 0, 0, 1, 120, 0, 0, 0, 0, 0, 0, 0, 0, 0, 0, 0, 0, 0, 0, 0, 0,
      0, 0, 0, 0] }

/-- The request `window-change` with `W=100,H=50,Wpx=0,Hpx=0`. -/
def windowChange : ssh.Request :=
  { Type_ := "window-change", WantReply := false,
    Payload := [0, 0, 0, 100, 0, 0, 0, 50, 0, 0, 0, 0, 0, 0, 0, 0] }

/-- A context whose terminal is a local terminal with the params 80x24. -/
def ctxWithTerm : srv.ServerContext :=
  { ClusterName := "example.com", Login := "root",
    term := some (.localTerm
      { wg := 1, cmd := none, pty := some { fd := 3, closed := false },
        tty := some { fd := 4, closed := false },
        params := { W := 80, H := 24, Wpx := 0, Hpx := 0 } }),
    agent := false }

/-- A local terminal as `NewLocalTerminal` returns it, with no closer started. -/
def fresh : srv.LocalState :=
  { t := { wg := 0, cmd := none, pty := some { fd := 3, closed := false },
           tty := some { fd := 4, closed := false },
           params := rsession.TerminalParams.zero },
    closers := 0, passed := 0 }

/-- The state `fresh` after one `Close`, with one party still copying. -/
def closing : srv.LocalState :=
  { t := { wg := 1, cmd := none, pty := some { fd := 3, closed := false },
           tty := some { fd := 4, closed := true },
           params := rsession.TerminalParams.zero },
    closers := 1, passed := 0 }

/-- The state `fresh` after `Close`, the return of the `wg.Wait()` of its
`closePTY`, and `AddParty(1)`: a party is copying and the PTY is open. -/
def joined : srv.LocalState :=
  { t := { wg := 1, cmd := none, pty := some { fd := 3, closed := false },
           tty := some { fd := 4, closed := true },
           params := rsession.TerminalParams.zero },
    closers := 0, passed := 1 }

/-- A local terminal whose command was started as process 77. -/
def started : srv.terminal :=
  { wg := 0, cmd := some { Path := "/bin/sh", Process := some { Pid := 77 } },
    pty := some { fd := 3, closed := false }, tty := none,
    params := rsession.TerminalParams.zero }

/-- A certificate for the key `caKey`. -/
def cert : ssh.Certificate := { Key := [1, 2, 3], KeyId := "node", wire := [9, 1, 2, 3] }

/-- Key material under the base name `node`: a private key for `caKey` and a
certificate for it. -/
def keyEnv : forward.KeyEnv :=
  { ReadFile := fun path =>
      if path = "node.key" then .ok [7] else
      if path = "node.cert" then .ok [8] else .error { msg := "no such file" },
    ParsePrivateKey := fun _ => .ok { pub := caKey },
    ParseAuthorizedKey := fun _ => .ok (.certificate cert) }

/-- The key material `keyEnv` with a bare public key in place of the
certificate. -/
def keyEnvBare : forward.KeyEnv :=
  { keyEnv with ParseAuthorizedKey := fun _ => .ok caKey }

/-- A remote terminal with the cached params `W=80, H=24`. -/
def remote : srv.remoteTerminal :=
  { wg := 0, params := { W := 80, H := 24, Wpx := 0, Hpx := 0 } }

/-- An outbound session on which every call succeeds. -/
def sessionWorld : srv.SessionWorld :=
  { stdoutPipe := none, stdinPipe := none, requestPty := none, shell := none }

/-- The request `subsystem` with an empty payload, which does not decode, and
`WantReply=true`. -/
def subsystemBad : ssh.Request := { Type_ := "subsystem", WantReply := true, Payload := [] }

/-- The request `exec` with the command `ls` and `WantReply=true`. -/
def execLs : ssh.Request :=
  { Type_ := "exec", WantReply := true, Payload := [0, 0, 0, 2, 108, 115] }

/-- The world `world` in which `session.StdoutPipe()` fails. -/
def worldNoStdout : forward.World :=
  { world with stdoutPipe := some { msg := "ssh: Stdout already set" } }

end examples

/-! ## Theorems -/

namespace subtle

theorem ConstantTimeByteEq_zero (v : Nat) (hv : v < 256) :
    ConstantTimeByteEq v 0 = 1 ↔ v = 0 := by
  unfold ConstantTimeByteEq
  simp only [Nat.xor_zero, Nat.shiftRight_eq_div_pow]
  have h1 : v % 2 ^ 32 = v := Nat.mod_eq_of_lt (by omega)
  rw [h1]
  constructor
  · intro h
    by_contra hne
    have h2 : (v + 2 ^ 32 - 1) % 2 ^ 32 = v - 1 := by omega
    rw [h2] at h
    omega
  · rintro rfl
    decide

theorem lor_eq_zero (a b : Nat) : a ||| b = 0 ↔ a = 0 ∧ b = 0 := by
  constructor
  · intro h
    have hbit : ∀ i, a.testBit i = false ∧ b.testBit i = false := by
      intro i
      have hi := congrArg (fun n => Nat.testBit n i) h
      simpa [Nat.testBit_or] using hi
    exact ⟨Nat.eq_of_testBit_eq (fun i => by simp [(hbit i).1]),
      Nat.eq_of_testBit_eq (fun i => by simp [(hbit i).2])⟩
  · rintro ⟨rfl, rfl⟩
    rfl

theorem xorAccumulate_lt (v : Nat) (x y : Bytes) (hv : v < 256) :
    xorAccumulate v x y < 256 := by
  induction x generalizing v y with
  | nil => simpa [xorAccumulate] using hv
  | cons a x ih =>
    cases y with
    | nil => simpa [xorAccumulate] using hv
    | cons b y =>
      simp only [xorAccumulate]
      apply ih
      have hx : a.val ^^^ b.val < 2 ^ 8 := Nat.xor_lt_two_pow a.isLt b.isLt
      exact Nat.or_lt_two_pow (n := 8) hv hx

theorem xorAccumulate_eq_zero (v : Nat) (x y : Bytes) (hlen : x.length = y.length) :
    xorAccumulate v x y = 0 ↔ v = 0 ∧ x = y := by
  induction x generalizing v y with
  | nil =>
    cases y with
    | nil => simp [xorAccumulate]
    | cons b y => simp at hlen
  | cons a x ih =>
    cases y with
    | nil => simp at hlen
    | cons b y =>
      simp only [List.length_cons, Nat.add_right_cancel_iff] at hlen
      simp only [xorAccumulate, ih _ y hlen, List.cons.injEq]
      have hxor : a.val ^^^ b.val = 0 ↔ a = b := by
        rw [Nat.xor_eq_zero, Fin.val_inj]
      rw [lor_eq_zero, hxor]
      tauto

/-- `ConstantTimeCompare` returns 1 exactly on byte-equal slices. -/
theorem ConstantTimeCompare_eq_one_iff (x y : Bytes) :
    ConstantTimeCompare x y = 1 ↔ x = y := by
  unfold ConstantTimeCompare
  by_cases hlen : x.length = y.length
  · simp only [hlen, ne_eq, not_true_eq_false, if_false]
    rw [ConstantTimeByteEq_zero _ (xorAccumulate_lt 0 x y (by decide)),
      xorAccumulate_eq_zero 0 x y hlen]
    simp
  · simp only [ne_eq, hlen, not_false_eq_true, if_true]
    constructor
    · intro h; omega
    · intro h; exact absurd (congrArg List.length h) hlen

end subtle

namespace srv

theorem IsHostAuthority.loop_eq_true_iff (advertise : Bytes) (p : ssh.PublicKey)
    (addr : Bytes) (cs : List ssh.PublicKey) :
    IsHostAuthority.loop advertise p addr cs = true ↔
      addr = advertise ∧ ∃ c ∈ cs, c.Marshal = p.Marshal := by
  induction cs with
  | nil => simp [IsHostAuthority.loop]
  | cons c rest ih =>
    simp only [IsHostAuthority.loop, beq_iff_eq, subtle.ConstantTimeCompare_eq_one_iff,
      Bool.and_eq_true, decide_eq_true_eq, List.mem_cons, exists_eq_or_imp]
    by_cases h : advertise = addr ∧ c.Marshal = p.Marshal
    · simp only [h, and_self, if_true, true_iff]
      exact ⟨trivial, Or.inl trivial⟩
    · rw [if_neg h, ih]
      constructor
      · rintro ⟨ha, hc⟩
        exact ⟨ha, Or.inr hc⟩
      · rintro ⟨ha, hc | hc⟩
        · exact absurd ⟨ha.symm, hc⟩ h
        · exact ⟨ha, hc⟩

/-- C1: when the host CA of the context's cluster resolves and yields the
checker list `cs`, the `IsHostAuthority` callback returns true exactly when
`addr` is byte-equal to the advertised address and the marshalled key is
byte-equal to the marshalled bytes of some checker in `cs`. -/
theorem IsHostAuthority_iff (ctx : ServerContext) (s : Server) (p : ssh.PublicKey)
    (addr : Bytes) (ca : services.CertAuthority) (cs : List ssh.PublicKey)
    (hca : s.GetCertAuthority { DomainName := ctx.ClusterName, Type_ := .HostCA } false
      = .ok ca)
    (hcs : ca.Checkers = .ok cs) :
    IsHostAuthority ctx s p addr = true ↔
      addr = s.AdvertiseAddr ∧ ∃ c ∈ cs, c.Marshal = p.Marshal := by
  unfold IsHostAuthority
  simp only [hca, hcs]
  exact IsHostAuthority.loop_eq_true_iff _ _ _ _

/-- The callback accepts the CA key of `examples.server` at its advertised
address, and rejects it at another address. -/
theorem IsHostAuthority_iff_witness :
    IsHostAuthority examples.ctx examples.server examples.caKey examples.nodeAddr = true ∧
    IsHostAuthority examples.ctx examples.server examples.caKey [110] = false := by
  refine ⟨(IsHostAuthority_iff examples.ctx examples.server examples.caKey
      examples.nodeAddr _ _ rfl rfl).mpr ⟨rfl, examples.caKey, by decide, rfl⟩, ?_⟩
  rw [Bool.eq_false_iff]
  intro h
  have h2 := ((IsHostAuthority_iff examples.ctx examples.server examples.caKey
      [110] _ _ rfl rfl).mp h).1
  revert h2
  decide

/-- C2: the `IsHostAuthority` callback fails closed: it returns false when
`GetCertAuthority` returns an error, when `ca.Checkers()` returns an error, and
when the checker list is empty. -/
theorem IsHostAuthority_fail_closed (ctx : ServerContext) (s : Server)
    (p : ssh.PublicKey) (addr : Bytes) :
    (∀ e, s.GetCertAuthority { DomainName := ctx.ClusterName, Type_ := .HostCA } false
        = .error e → IsHostAuthority ctx s p addr = false) ∧
    (∀ ca e, s.GetCertAuthority { DomainName := ctx.ClusterName, Type_ := .HostCA } false
        = .ok ca → ca.Checkers = .error e → IsHostAuthority ctx s p addr = false) ∧
    (∀ ca, s.GetCertAuthority { DomainName := ctx.ClusterName, Type_ := .HostCA } false
        = .ok ca → ca.Checkers = .ok [] → IsHostAuthority ctx s p addr = false) := by
  refine ⟨?_, ?_, ?_⟩
  · intro e he
    simp [IsHostAuthority, he]
  · intro ca e hca he
    simp [IsHostAuthority, hca, he]
  · intro ca hca he
    simp [IsHostAuthority, hca, he, IsHostAuthority.loop]

/-- The callback rejects the CA key at the right address when the auth service
fails, when the checkers cannot be produced, and when there are none. -/
theorem IsHostAuthority_fail_closed_witness :
    IsHostAuthority examples.ctx examples.serverNoCA examples.caKey examples.nodeAddr = false ∧
    IsHostAuthority examples.ctx examples.serverBadCA examples.caKey examples.nodeAddr = false ∧
    IsHostAuthority examples.ctx examples.serverEmptyCA examples.caKey examples.nodeAddr
      = false :=
  ⟨(IsHostAuthority_fail_closed examples.ctx examples.serverNoCA examples.caKey
      examples.nodeAddr).1 _ rfl,
   (IsHostAuthority_fail_closed examples.ctx examples.serverBadCA examples.caKey
      examples.nodeAddr).2.1 _ _ rfl rfl,
   (IsHostAuthority_fail_closed examples.ctx examples.serverEmptyCA examples.caKey
      examples.nodeAddr).2.2 _ rfl rfl⟩

end srv

namespace forward

/-- At the keepalive request with `WantReply=true` the handler calls `Reply`
once, with `ok=false`: it does not reply with success. -/
theorem handleGlobalRequest_keepalive_not_success :
    handleGlobalRequest examples.keepalive
        = [.connSendRequest "keepalive@openssh.com" true, .reply false none] ∧
    Event.reply true none ∉ handleGlobalRequest examples.keepalive := by
  decide

/-- C3, amended: for a global request of type `keepalive@openssh.com` with
`WantReply=true`, the handler sends a `keepalive@openssh.com` request of its own
on the connection and then calls `Reply` exactly once, with `ok=false` and no
payload; it does not close the connection. -/
theorem handleGlobalRequest_keepalive (r : ssh.Request)
    (htype : r.Type_ = "keepalive@openssh.com") (hwant : r.WantReply = true) :
    handleGlobalRequest r
        = [.connSendRequest "keepalive@openssh.com" true, .reply false none] ∧
    Event.connClose ∉ handleGlobalRequest r := by
  simp [handleGlobalRequest, htype, hwant]

/-- The amended statement at the request `examples.keepalive`. -/
theorem handleGlobalRequest_keepalive_witness :
    handleGlobalRequest examples.keepalive
        = [.connSendRequest "keepalive@openssh.com" true, .reply false none] ∧
    Event.connClose ∉ handleGlobalRequest examples.keepalive :=
  handleGlobalRequest_keepalive examples.keepalive rfl rfl

theorem handleRequest.dispatch_eq_none (w : World) (ctx : srv.ServerContext)
    (req : ssh.Request)
    (htype : req.Type_ ∉ ["env", "exec", "pty-req", "subsystem", "shell", "window-change",
      "auth-agent-req@openssh.com"]) :
    handleRequest.dispatch w ctx req = none := by
  simp only [List.mem_cons, List.mem_singleton, not_or, List.not_mem_nil, or_false] at htype
  obtain ⟨h1, h2, h3, h4, h5, h6, h7⟩ := htype
  simp [handleRequest.dispatch, h1, h2, h3, h4, h5, h6, h7]

/-- C4: for a channel request whose type is none of `env`, `exec`, `pty-req`,
`subsystem`, `shell`, `window-change`, `auth-agent-req@openssh.com`,
`handleRequest` writes to the channel's stderr a message that starts with
`unsupported request type`, then sends a failure reply carrying that message
when `WantReply` is true and no reply when it is false, returns a non-nil
error, does not close the channel and leaves the context as it was. -/
theorem handleRequest_unsupported (w : World) (ctx : srv.ServerContext) (req : ssh.Request)
    (htype : req.Type_ ∉ ["env", "exec", "pty-req", "subsystem", "shell", "window-change",
      "auth-agent-req@openssh.com"]) :
    ∃ message : String,
      (∃ rest, message = "unsupported request type" ++ rest) ∧
      (handleRequest w ctx req).events
        = .stderrWrite message ::
            (if req.WantReply then [.reply false (some message)] else []) ∧
      (∃ err, (handleRequest w ctx req).ret = .returned (some err)) ∧
      Event.channelClose ∉ (handleRequest w ctx req).events ∧
      (handleRequest w ctx req).ctx = ctx := by
  refine ⟨unsupportedMessage w req, ⟨": " ++ w.Quote req.Type_ ++ "\n", ?_⟩, ?_, ?_, ?_, ?_⟩
  · unfold unsupportedMessage
    rw [← String.append_assoc, ← String.append_assoc]
    rfl
  · simp [handleRequest, handleRequest.dispatch_eq_none w ctx req htype, replyError]
  · exact ⟨{ msg := w.Errorf (unsupportedMessage w req) }, by
      simp [handleRequest, handleRequest.dispatch_eq_none w ctx req htype]⟩
  · cases hw : req.WantReply <;>
      simp [handleRequest, handleRequest.dispatch_eq_none w ctx req htype, replyError, hw]
  · simp [handleRequest, handleRequest.dispatch_eq_none w ctx req htype]

/-- The statement of C4 at the request `x11-req`. -/
theorem handleRequest_unsupported_witness :
    ∃ message : String,
      (∃ rest, message = "unsupported request type" ++ rest) ∧
      (handleRequest examples.world examples.ctx examples.x11).events
        = .stderrWrite message ::
            (if examples.x11.WantReply then [.reply false (some message)] else []) ∧
      (∃ err, (handleRequest examples.world examples.ctx examples.x11).ret
        = .returned (some err)) ∧
      Event.channelClose ∉ (handleRequest examples.world examples.ctx examples.x11).events ∧
      (handleRequest examples.world examples.ctx examples.x11).ctx = examples.ctx :=
  handleRequest_unsupported examples.world examples.ctx examples.x11 (by decide)

end forward

namespace forward

/-- C5, at the request `pty-req` with `W=0,H=0,Wpx=0,Hpx=0`, which decodes, on
a context without terminal, the PTY opening: the handler succeeds and the
context holds a new terminal, but that terminal surfaces the params `0,0,0,0`,
not `80,24,0,0`, which is what `ParsePTYReq` makes of the same request. -/
theorem handlePtyReq_not_defaults :
    handlePtyReq.unmarshal examples.ptyZero.Payload
        = .ok { Env := [120], W := 0, H := 0, Wpx := 0, Hpx := 0, Modes := [] } ∧
    examples.ctx.GetTerm = none ∧
    (handlePtyReq examples.world examples.ctx examples.ptyZero).ret = .returned none ∧
    ((handlePtyReq examples.world examples.ctx examples.ptyZero).ctx.GetTerm.map
        srv.Terminal.GetTerminalParams) = some { W := 0, H := 0, Wpx := 0, Hpx := 0 } ∧
    srv.ParsePTYReq examples.ptyZero
        = .ok { Env := [120], W := 80, H := 24, Wpx := 0, Hpx := 0, Modes := [] } :=
  ⟨rfl, rfl, rfl, rfl, rfl⟩

/-- Whatever dimensions a `pty-req` that decodes asks for, the terminal that
`handlePtyReq` creates surfaces the params `0,0,0,0`. -/
theorem handlePtyReq_params_zero (w : World) (ctx : srv.ServerContext) (req : ssh.Request)
    (p : ptyRequest) (pty tty : os.File) (hp : handlePtyReq.unmarshal req.Payload = .ok p)
    (hterm : ctx.GetTerm = none) (hopen : w.ptyOpen = .ok (pty, tty)) :
    (handlePtyReq w ctx req).ctx.GetTerm.map srv.Terminal.GetTerminalParams
      = some rsession.TerminalParams.zero := by
  have hterm2 : ctx.term = none := hterm
  simp [handlePtyReq, hp, hterm, hopen, srv.NewLocalTerminal, srv.ServerContext.SetTerm,
    srv.ServerContext.GetTerm, hterm2, srv.Terminal.GetTerminalParams,
    srv.terminal.GetTerminalParams]

/-- What `handlePtyReq` does with the outcome of `pty.Open()`, for a `pty-req`
request that decodes, handled on a context without terminal: if it succeeds,
the handler succeeds, causes no event, and the context afterwards holds a new
local terminal over the opened PTY and TTY; if it fails, the handler returns
that error and the context is unchanged. -/
theorem handlePtyReq_new_terminal (w : World) (ctx : srv.ServerContext) (req : ssh.Request)
    (p : ptyRequest) (hp : handlePtyReq.unmarshal req.Payload = .ok p)
    (hterm : ctx.GetTerm = none) :
    (∀ pty tty, w.ptyOpen = .ok (pty, tty) →
      (handlePtyReq w ctx req).ret = .returned none ∧
      (handlePtyReq w ctx req).events = [] ∧
      ∃ t, (handlePtyReq w ctx req).ctx.GetTerm = some (.localTerm t) ∧
        t.pty = some pty ∧ t.tty = some tty) ∧
    (∀ err, w.ptyOpen = .error err →
      (handlePtyReq w ctx req).ret = .returned (some err) ∧
      (handlePtyReq w ctx req).ctx = ctx) := by
  have hterm2 : ctx.term = none := hterm
  constructor
  · intro pty tty hopen
    simp [handlePtyReq, hp, hterm, hopen, srv.NewLocalTerminal, srv.ServerContext.SetTerm,
      srv.ServerContext.GetTerm, hterm2]
  · intro err hopen
    simp [handlePtyReq, hp, hterm, hopen, srv.NewLocalTerminal]

/-- The two outcomes of `pty.Open()` at the request `examples.ptyZero`: success
with a new terminal, and the error of `pty.Open()`. -/
theorem handlePtyReq_new_terminal_witness :
    ((handlePtyReq examples.world examples.ctx examples.ptyZero).ret = .returned none ∧
      (handlePtyReq examples.world examples.ctx examples.ptyZero).events = [] ∧
      ∃ t, (handlePtyReq examples.world examples.ctx examples.ptyZero).ctx.GetTerm
          = some (.localTerm t) ∧
        t.pty = some { fd := 3, closed := false } ∧
        t.tty = some { fd := 4, closed := false }) ∧
    ((handlePtyReq examples.worldNoPty examples.ctx examples.ptyZero).ret
        = .returned (some { msg := "out of ptys" }) ∧
      (handlePtyReq examples.worldNoPty examples.ctx examples.ptyZero).ctx = examples.ctx) :=
  ⟨(handlePtyReq_new_terminal examples.world examples.ctx examples.ptyZero
      { Env := [120], W := 0, H := 0, Wpx := 0, Hpx := 0, Modes := [] } rfl rfl).1 _ _ rfl,
   (handlePtyReq_new_terminal examples.worldNoPty examples.ctx examples.ptyZero
      { Env := [120], W := 0, H := 0, Wpx := 0, Hpx := 0, Modes := [] } rfl rfl).2 _ rfl⟩

/-- On the request `window-change` with `W=100,H=50`, which decodes, and a
context whose terminal has the params 80x24: the handler returns success and the
terminal still surfaces 80x24, not the requested 100x50. -/
theorem handleWindowChange_not_applied :
    handleWindowChange.unmarshal examples.windowChange.Payload
        = .ok { W := 100, H := 50, Wpx := 0, Hpx := 0 } ∧
    (handleWindowChange examples.ctxWithTerm examples.windowChange).ret = .returned none ∧
    ((handleWindowChange examples.ctxWithTerm examples.windowChange).ctx.GetTerm.map
        srv.Terminal.GetTerminalParams) = some { W := 80, H := 24, Wpx := 0, Hpx := 0 } :=
  ⟨rfl, rfl, rfl⟩

/-- C6, amended: for a `window-change` request that decodes, the handler
returns success without calling `SetWinSize`: it causes no event and leaves the
context, with its terminal and that terminal's params, as it was. -/
theorem handleWindowChange_unchanged (ctx : srv.ServerContext) (req : ssh.Request)
    (wc : windowChangeRequest) (hwc : handleWindowChange.unmarshal req.Payload = .ok wc) :
    handleWindowChange ctx req = { ctx := ctx, events := [], ret := .returned none } ∧
    (handleWindowChange ctx req).ctx.GetTerm.map srv.Terminal.GetTerminalParams
      = ctx.GetTerm.map srv.Terminal.GetTerminalParams := by
  simp [handleWindowChange, hwc]

/-- The amended statement at the request `examples.windowChange` on a context
with a terminal. -/
theorem handleWindowChange_unchanged_witness :
    handleWindowChange examples.ctxWithTerm examples.windowChange
      = { ctx := examples.ctxWithTerm, events := [], ret := .returned none } ∧
    (handleWindowChange examples.ctxWithTerm examples.windowChange).ctx.GetTerm.map
        srv.Terminal.GetTerminalParams
      = examples.ctxWithTerm.GetTerm.map srv.Terminal.GetTerminalParams :=
  handleWindowChange_unchanged examples.ctxWithTerm examples.windowChange
    { W := 100, H := 50, Wpx := 0, Hpx := 0 } rfl

end forward

namespace srv

theorem terminal.Close_keeps_pty (t : terminal) (sys : Option Error) :
    (t.Close sys).1.ttyOpen = false ∧ (t.Close sys).1.pty = t.pty ∧
      (t.Close sys).1.wg = t.wg := by
  unfold terminal.Close
  cases htty : t.tty with
  | none => simp [terminal.ttyOpen, htty]
  | some f =>
    cases hf : f.closed <;> simp [terminal.ttyOpen, os.File.Close, hf]

theorem step_AddParty_next (s s1 : LocalState) (delta : Int)
    (h : step s (.AddParty delta) = .next s1) :
    s1.t.pty = s.t.pty ∧ s1.passed = s.passed := by
  by_cases hneg : s.t.wg + delta < 0
  · simp [step, terminal.AddParty, hneg] at h
  · simp only [step, terminal.AddParty, hneg, if_false, StepResult.next.injEq] at h
    subst h
    exact ⟨rfl, rfl⟩

theorem step_Wait_next (s s1 : LocalState) (h : step s .closePTY_Wait = .next s1) :
    s.t.wg = 0 ∧ s1.t = s.t := by
  simp only [step] at h
  split at h
  · cases h
  · split at h
    · cases h
    · split at h
      · cases h
      · rename_i _ _ hwg
        simp only [ne_eq, Decidable.not_not] at hwg
        simp only [StepResult.next.injEq] at h
        subst h
        exact ⟨hwg, rfl⟩

theorem step_Close_next (s s1 : LocalState) (h : step s .closePTY_Close = .next s1) :
    0 < s.passed := by
  simp only [step] at h
  split at h
  · cases h
  · omega

/-- A step that takes the PTY from open to not open is the close statement of
`closePTY`, run by a goroutine that is past its wait. -/
theorem step_closes_pty (s s1 : LocalState) (a : Step) (h : step s a = .next s1)
    (hopen : s.t.ptyOpen = true) (hclosed : s1.t.ptyOpen = false) :
    a = .closePTY_Close ∧ 0 < s.passed := by
  cases a with
  | AddParty delta =>
    have hp := (step_AddParty_next s s1 delta h).1
    simp only [terminal.ptyOpen, hp] at hopen hclosed
    rw [hopen] at hclosed
    cases hclosed
  | Close sys =>
    simp only [step, StepResult.next.injEq] at h
    subst h
    have hp := (terminal.Close_keeps_pty s.t sys).2.1
    simp only [terminal.ptyOpen, hp] at hopen hclosed
    rw [hopen] at hclosed
    cases hclosed
  | closePTY_Wait =>
    have hp := (step_Wait_next s s1 h).2
    rw [hp, hopen] at hclosed
    cases hclosed
  | closePTY_Close => exact ⟨rfl, step_Close_next s s1 h⟩

/-- A step after which a goroutine is past its wait, when none was before, is
the return of `wg.Wait()` at counter zero. -/
theorem step_passes_wait (s s1 : LocalState) (a : Step) (h : step s a = .next s1)
    (hzero : s.passed = 0) (hpos : 0 < s1.passed) :
    a = .closePTY_Wait ∧ s.t.wg = 0 := by
  cases a with
  | AddParty delta =>
    have hp := (step_AddParty_next s s1 delta h).2
    omega
  | Close sys =>
    simp only [step, StepResult.next.injEq] at h
    subst h
    simp only at hpos
    omega
  | closePTY_Wait => exact ⟨rfl, (step_Wait_next s s1 h).1⟩
  | closePTY_Close =>
    have := step_Close_next s s1 h
    omega

theorem run_cons (s s1 : LocalState) (a : Step) (rest : List Step)
    (h : step s a = .next s1) : run s (a :: rest) = run s1 rest := by
  simp [run, h]

/-- In a run that ends with a goroutine past its wait, either one was past its
wait at the start, or the run has a return of `wg.Wait()` taken at counter
zero. -/
theorem run_passed_wait (acts : List Step) (s0 s : LocalState)
    (hrun : run s0 acts = some s) (hpos : 0 < s.passed) :
    0 < s0.passed ∨
      ∃ pre post s2, acts = pre ++ Step.closePTY_Wait :: post ∧
        run s0 pre = some s2 ∧ s2.t.wg = 0 := by
  induction acts generalizing s0 with
  | nil =>
    simp only [run, Option.some.injEq] at hrun
    subst hrun
    exact Or.inl hpos
  | cons a rest ih =>
    cases hstep : step s0 a with
    | blocked => simp [run, hstep] at hrun
    | panic why => simp [run, hstep] at hrun
    | next s1 =>
      rw [run_cons s0 s1 a rest hstep] at hrun
      rcases ih s1 hrun with h1 | ⟨pre, post, s2, hacts, hpre, hwg⟩
      · by_cases h0 : 0 < s0.passed
        · exact Or.inl h0
        · have hz : s0.passed = 0 := by omega
          obtain ⟨ha, hwg⟩ := step_passes_wait s0 s1 a hstep hz h1
          subst ha
          exact Or.inr ⟨[], rest, s0, rfl, rfl, hwg⟩
      · refine Or.inr ⟨a :: pre, post, s2, ?_, ?_, hwg⟩
        · rw [hacts]
          rfl
        · rw [run_cons s0 s1 a pre hstep]
          exact hpre

/-- After `Close`, the return of the wait of its `closePTY` at counter zero and
`AddParty(1)`, the terminal has one participant and an open PTY, and the close
statement of `closePTY` then closes the PTY while the counter is 1. -/
theorem closePTY_closes_at_positive_counter :
    run examples.fresh [.Close none, .closePTY_Wait, .AddParty 1] = some examples.joined ∧
    examples.joined.t.wg = 1 ∧
    examples.joined.t.ptyOpen = true ∧
    step examples.joined .closePTY_Close
      = .next { examples.joined with
          t := { examples.joined.t with pty := none }, passed := 0 } ∧
    ({ examples.joined.t with pty := none } : terminal).ptyOpen = false ∧
    ({ examples.joined.t with pty := none } : terminal).wg = 1 := by
  decide

/-- C7, amended: in a run of the local terminal from a state in which no
`closePTY` is past its wait, with the steps `AddParty`, `Close`, the return of
the `wg.Wait()` of `closePTY` and the close statement of `closePTY`: `Close`
closes the TTY in that step, leaves the PTY and the counter as they were and
never blocks; the wait of `closePTY` returns only at counter zero and does not
close the PTY; and a step that closes the PTY is the close statement of
`closePTY`, taken after a return of its wait at counter zero earlier in the
run. -/
theorem closePTY_closes_after_wait (s0 : LocalState) (acts : List Step) (s : LocalState)
    (a : Step) (s1 : LocalState) (hinit : s0.passed = 0)
    (hrun : run s0 acts = some s) (hstep : step s a = .next s1) :
    (∀ sys, a = .Close sys →
      s1.t.ttyOpen = false ∧ s1.t.pty = s.t.pty ∧ s1.t.wg = s.t.wg) ∧
    (∀ sys, ∃ s2, step s (.Close sys) = .next s2) ∧
    (a = .closePTY_Wait → s.t.wg = 0 ∧ s1.t.pty = s.t.pty) ∧
    (s.t.ptyOpen = true → s1.t.ptyOpen = false →
      a = .closePTY_Close ∧
      ∃ pre post s2, acts = pre ++ Step.closePTY_Wait :: post ∧
        run s0 pre = some s2 ∧ s2.t.wg = 0) := by
  refine ⟨?_, fun sys => ⟨_, rfl⟩, ?_, ?_⟩
  · intro sys ha
    subst ha
    simp only [step, StepResult.next.injEq] at hstep
    subst hstep
    exact terminal.Close_keeps_pty s.t sys
  · intro ha
    subst ha
    have hw := step_Wait_next s s1 hstep
    exact ⟨hw.1, by rw [hw.2]⟩
  · intro hopen hclosed
    obtain ⟨ha, hpos⟩ := step_closes_pty s s1 a hstep hopen hclosed
    refine ⟨ha, ?_⟩
    rcases run_passed_wait acts s0 s hrun hpos with h0 | h
    · omega
    · exact h

/-- The amended statement of C7 at the run `Close`, return of the wait,
`AddParty(1)` from a new terminal, followed by the close statement of
`closePTY`: the step that closes the PTY comes after a return of the wait at
counter zero. -/
theorem closePTY_closes_after_wait_witness :
    ∃ pre post s2,
      [Step.Close none, Step.closePTY_Wait, Step.AddParty 1]
        = pre ++ Step.closePTY_Wait :: post ∧
      run examples.fresh pre = some s2 ∧ s2.t.wg = 0 :=
  ((closePTY_closes_after_wait examples.fresh
      [Step.Close none, Step.closePTY_Wait, Step.AddParty 1] examples.joined
      Step.closePTY_Close
      { examples.joined with t := { examples.joined.t with pty := none }, passed := 0 }
      rfl (by decide) (by decide)).2.2.2 (by decide) (by decide)).2

/-- `Kill` on a local terminal whose `cmd` is set: it returns nil when the
process was never started, when `Process.Kill` succeeds, and when it fails with
`os: process already finished`; it returns an error exactly when the process
exists and `Process.Kill` fails with another error, and that error is the one
returned. -/
theorem Kill_result (t : terminal) (cmd : exec.Cmd) (killed : Option Error)
    (hcmd : t.cmd = some cmd) :
    (cmd.Process = none → t.Kill killed = .ret none) ∧
    (killed = none → t.Kill killed = .ret none) ∧
    (∀ err, killed = some err → err.msg = "os: process already finished" →
      t.Kill killed = .ret none) ∧
    (∀ err, t.Kill killed = .ret (some err) ↔
      cmd.Process ≠ none ∧ killed = some err ∧ err.msg ≠ "os: process already finished") ∧
    (∃ r, t.Kill killed = .ret r) := by
  unfold terminal.Kill
  simp only [hcmd]
  cases hp : cmd.Process with
  | none => simp
  | some proc =>
    cases hk : killed with
    | none => simp
    | some e =>
      by_cases hmsg : e.msg = "os: process already finished"
      · simp only [hmsg, ne_eq, not_true_eq_false, if_false]
        refine ⟨by simp, by simp, by simp, ?_, ⟨_, rfl⟩⟩
        intro err
        constructor
        · intro h
          cases h
        · rintro ⟨_, h2, h3⟩
          cases h2
          exact absurd hmsg h3
      · simp only [ne_eq, hmsg, not_false_eq_true, if_true, trace.Wrap]
        refine ⟨by simp, by simp, ?_, ?_, ⟨_, rfl⟩⟩
        · intro err h1 h2
          cases h1
          exact absurd h2 hmsg
        · intro err
          constructor
          · intro h
            cases h
            exact ⟨by simp, rfl, hmsg⟩
          · rintro ⟨_, h2, _⟩
            cases h2
            rfl

/-- `Kill` on a started terminal: a process that has already finished is a
success, a process that cannot be signalled is an error. -/
theorem Kill_result_witness :
    examples.started.Kill (some { msg := "os: process already finished" }) = .ret none ∧
    examples.started.Kill (some { msg := "operation not permitted" })
      = .ret (some { msg := "operation not permitted" }) :=
  ⟨(Kill_result examples.started _ (some { msg := "os: process already finished" })
      rfl).2.2.1 _ rfl rfl,
   ((Kill_result examples.started _ (some { msg := "operation not permitted" })
      rfl).2.2.2.1 _).mpr ⟨by decide, rfl, by decide⟩⟩

/-- C8, at a local terminal as `NewLocalTerminal` returns it, on which `Run`
has not assigned `cmd`: the child was never started, and `Kill` does not
return nil: it panics on `t.cmd.Process`, whatever `Process.Kill` would
report. -/
theorem Kill_without_cmd_panics :
    NewLocalTerminal (.ok ({ fd := 3, closed := false }, { fd := 4, closed := false }))
      = .ok examples.fresh.t ∧
    examples.fresh.t.cmd = none ∧
    examples.fresh.t.Kill none = .panic "nil pointer dereference" ∧
    examples.fresh.t.Kill (some { msg := "os: process already finished" })
      = .panic "nil pointer dereference" :=
  ⟨rfl, rfl, rfl, rfl⟩

/-- C9: for a local terminal with a command, when `cmd.Wait` returns an exit
error carrying the wait status `st`, `Wait` returns the result with code
`st.ExitStatus()` and the command path, and a nil error; when `cmd.Wait`
returns nil and the process state holds the wait status `st`, it returns the
same; and it returns an error only when `cmd.Wait` returned that error, not an
exit error, or returned nil with a process state that is not a wait status. -/
theorem Wait_result (t : terminal) (cmd : exec.Cmd) (waited : exec.WaitResult)
    (hcmd : t.cmd = some cmd) :
    (∀ st, waited = .exitError (.waitStatus st) →
      t.Wait waited
        = .ret (some { Code := syscall.WaitStatus.ExitStatus st, Command := cmd.Path }, none)) ∧
    (∀ st, waited = .ok (.waitStatus st) →
      t.Wait waited
        = .ret (some { Code := syscall.WaitStatus.ExitStatus st, Command := cmd.Path }, none)) ∧
    (∀ r err, t.Wait waited = .ret (r, some err) →
      r = none ∧ (waited = .otherError err ∨ ∃ ty v, waited = .ok (.other ty v))) := by
  unfold terminal.Wait
  simp only [hcmd]
  refine ⟨?_, ?_, ?_⟩
  · rintro st rfl
    rfl
  · rintro st rfl
    rfl
  · intro r err h
    cases waited with
    | ok sys =>
      cases sys with
      | waitStatus st => simp at h
      | other ty v =>
        simp only [Outcome.ret.injEq, Prod.mk.injEq] at h
        exact ⟨h.1.symm, Or.inr ⟨ty, v, rfl⟩⟩
    | exitError sys =>
      cases sys with
      | waitStatus st => simp at h
      | other ty v => simp at h
    | otherError e =>
      simp only [Outcome.ret.injEq, Prod.mk.injEq, Option.some.injEq] at h
      exact ⟨h.1.symm, Or.inl (by rw [h.2])⟩

/-- The statement of C9 on a started terminal: a child that exited with code 1
(wait status 256) gives the code 1, a child killed by signal 9 (wait status 9)
gives the code -1, both with a nil error. -/
theorem Wait_result_witness :
    examples.started.Wait (.exitError (.waitStatus 256))
      = .ret (some { Code := 1, Command := "/bin/sh" }, none) ∧
    examples.started.Wait (.exitError (.waitStatus 9))
      = .ret (some { Code := -1, Command := "/bin/sh" }, none) :=
  ⟨(Wait_result examples.started _ (.exitError (.waitStatus 256)) rfl).1 256 rfl,
   (Wait_result examples.started _ (.exitError (.waitStatus 9)) rfl).1 9 rfl⟩

end srv

namespace forward

/-- C10: `readSigner(base)` yields a signer only if the file `base.key` reads
and parses as a private key, the file `base.cert` reads and parses as an
authorized key that is a certificate, and `NewCertSigner` accepts the two; when
the blob of `base.cert` parses as a bare public key, `readCertificate` fails
with `not cert` and `readSigner` fails with an error. -/
theorem readSigner_needs_certificate (env : KeyEnv) (base : String) :
    (∀ s, readSigner env base = .ok s →
      ∃ keyBytes priv certBytes cert,
        env.ReadFile (base ++ ".key") = .ok keyBytes ∧
        env.ParsePrivateKey keyBytes = .ok priv ∧
        env.ReadFile (base ++ ".cert") = .ok certBytes ∧
        env.ParseAuthorizedKey certBytes = .ok (.certificate cert) ∧
        ssh.NewCertSigner cert priv = .ok s) ∧
    (∀ certBytes algo wire,
      env.ReadFile (base ++ ".cert") = .ok certBytes →
      env.ParseAuthorizedKey certBytes = .ok (.bare algo wire) →
      readCertificate env (base ++ ".cert") = .error { msg := "not cert" } ∧
      ∃ err, readSigner env base = .error err) := by
  constructor
  · intro s h
    unfold readSigner readPrivateKey readCertificate at h
    cases hk : env.ReadFile (base ++ ".key") with
    | error e => simp [hk] at h
    | ok keyBytes =>
      cases hp : env.ParsePrivateKey keyBytes with
      | error e => simp [hk, hp] at h
      | ok priv =>
        cases hc : env.ReadFile (base ++ ".cert") with
        | error e => simp [hk, hp, hc] at h
        | ok certBytes =>
          cases ha : env.ParseAuthorizedKey certBytes with
          | error e => simp [hk, hp, hc, ha] at h
          | ok key =>
            cases key with
            | bare algo wire => simp [hk, hp, hc, ha] at h
            | certificate cert =>
              cases hn : ssh.NewCertSigner cert priv with
              | error e => simp [hk, hp, hc, ha, hn] at h
              | ok s2 =>
                simp only [hk, hp, hc, ha, hn, Except.ok.injEq] at h
                subst h
                exact ⟨keyBytes, priv, certBytes, cert, rfl, hp, rfl, ha, hn⟩
  · intro certBytes algo wire hc ha
    have hcert : readCertificate env (base ++ ".cert") = .error { msg := "not cert" } := by
      simp [readCertificate, hc, ha]
    refine ⟨hcert, ?_⟩
    unfold readSigner
    rw [hcert]
    cases readPrivateKey env (base ++ ".key") with
    | error e => exact ⟨e, rfl⟩
    | ok priv => exact ⟨_, rfl⟩

/-- The statement of C10 at the base name `node`: with a certificate the signer
presents it; with a bare public key in its place no signer is produced. -/
theorem readSigner_needs_certificate_witness :
    readSigner examples.keyEnv "node" = .ok { pub := .certificate examples.cert } ∧
    (∃ keyBytes priv certBytes cert,
        examples.keyEnv.ReadFile ("node" ++ ".key") = .ok keyBytes ∧
        examples.keyEnv.ParsePrivateKey keyBytes = .ok priv ∧
        examples.keyEnv.ReadFile ("node" ++ ".cert") = .ok certBytes ∧
        examples.keyEnv.ParseAuthorizedKey certBytes = .ok (.certificate cert) ∧
        ssh.NewCertSigner cert priv = .ok { pub := .certificate examples.cert }) ∧
    (readCertificate examples.keyEnvBare ("node" ++ ".cert") = .error { msg := "not cert" } ∧
      ∃ err, readSigner examples.keyEnvBare "node" = .error err) :=
  ⟨rfl,
   (readSigner_needs_certificate examples.keyEnv "node").1 _ rfl,
   (readSigner_needs_certificate examples.keyEnvBare "node").2 [8] "ssh-rsa" [1, 2, 3]
      rfl rfl⟩

end forward

namespace srv

/-- C11, at a remote terminal with the cached params `W=80, H=24` on a session
where every call succeeds: `Run` sends one `pty-req`, with the fixed modes, and
then requests a shell, but the `pty-req` has 24 columns and 80 rows: `W` went to
the height argument of `RequestPty` and `H` to its width argument. -/
theorem remoteTerminal_Run_swaps_dimensions :
    examples.remote.params.W = 80 ∧ examples.remote.params.H = 24 ∧
    examples.remote.Run examples.sessionWorld
      = ([SessionEvent.ptyReq
            { Term := "xterm", Columns := 24, Rows := 80, Width := 192, Height := 640,
              Modes := [(ssh.ECHO, 1), (ssh.TTY_OP_ISPEED, 14400),
                (ssh.TTY_OP_OSPEED, 14400)] },
          SessionEvent.shell], none) := by
  decide

end srv

namespace forward

/-- C12, at a `subsystem` request with `WantReply=true` whose payload does not
decode: `handleRequest` causes two writes to the channel's stderr and two
failure replies, one pair from `handleSubsystem` and one from `handleRequest`
itself; the same happens for an `exec` request when `session.StdoutPipe()`
fails, while an `exec` request whose payload does not decode gets one of
each. -/
theorem handleRequest_replies_twice :
    examples.subsystemBad.WantReply = true ∧
    (handleRequest examples.world examples.ctx examples.subsystemBad).events
      = [.stderrWrite "ssh: unmarshal error for field",
         .reply false (some "ssh: unmarshal error for field"),
         .stderrWrite "ssh: unmarshal error for field",
         .reply false (some "ssh: unmarshal error for field")] ∧
    replyCount (handleRequest examples.world examples.ctx examples.subsystemBad).events = 2 ∧
    stderrCount (handleRequest examples.world examples.ctx examples.subsystemBad).events = 2 ∧
    replyCount (handleRequest examples.worldNoStdout examples.ctx examples.execLs).events = 2 ∧
    stderrCount (handleRequest examples.worldNoStdout examples.ctx examples.execLs).events = 2 ∧
    replyCount (handleRequest examples.world examples.ctx
      { examples.subsystemBad with Type_ := "exec" }).events = 1 ∧
    stderrCount (handleRequest examples.world examples.ctx
      { examples.subsystemBad with Type_ := "exec" }).events = 1 :=
  ⟨rfl, rfl, rfl, rfl, rfl, rfl, rfl, rfl⟩

end forward
